import Mathlib

/-!
Verification of the FastAPI backend in `src/main.py` (health check, OpenAI
completion proxy, job lookup by Mongo ObjectId).

The embedding models:
* BSON ObjectId values and the `bson.ObjectId(str)` constructor (24 hex chars,
  case-insensitive) together with `str(ObjectId)` (lowercase hex);
* stored documents as a tagged variant `BDoc` (sequence, mapping, ObjectId,
  other scalars), as the spec's design note suggests for a typed target;
* `convert_objectid` (main.py lines 143-150) as a recursive walk over `BDoc`;
* the `/api/openai` handler `openai_proxy` (lines 96-138), with the upstream
  call, the JSON parse of the upstream body and the stringification of a
  JSON-decode failure supplied as parameters;
* the `/jobs/{_id}` handler `get_job_details` (lines 155-173), instrumented
  with the number of `find_one` queries it issues.
-/

/-- A BSON ObjectId: 12 bytes.  (bson.objectid.ObjectId) -/
structure ObjectId where
  bytes : List Nat
deriving DecidableEq

/-- Value of one hex digit, accepting both lowercase and uppercase
    (as `bytes.fromhex` does). -/
def hexVal (c : Char) : Option Nat :=
  if '0' ≤ c ∧ c ≤ '9' then some (c.toNat - '0'.toNat)
  else if 'a' ≤ c ∧ c ≤ 'f' then some (c.toNat - 'a'.toNat + 10)
  else if 'A' ≤ c ∧ c ≤ 'F' then some (c.toNat - 'A'.toNat + 10)
  else none

/-- Lowercase hex digit for `n < 16` (as `binascii.hexlify` produces). -/
def hexChar (n : Nat) : Char :=
  if n < 10 then Char.ofNat ('0'.toNat + n) else Char.ofNat ('a'.toNat + (n - 10))

/-- Decode a run of hex characters two at a time into bytes
    (the core of `bytes.fromhex` on a 24-character identifier). -/
def hexPairsToBytes : List Char → Option (List Nat)
  | [] => some []
  | [_] => none
  | c1 :: c2 :: rest => do
      let h ← hexVal c1
      let l ← hexVal c2
      let bs ← hexPairsToBytes rest
      pure ((16 * h + l) :: bs)

/-- `bson.ObjectId(s)` for a string argument: valid iff `len(s) == 24` and the
    characters decode as hex; returns `none` where the Python constructor
    raises `InvalidId`. -/
def ObjectId.ofHex (s : String) : Option ObjectId :=
  if s.length = 24 then (hexPairsToBytes s.data).map ObjectId.mk else none

/-- Two lowercase hex characters of one byte. -/
def byteToHex (b : Nat) : List Char := [hexChar (b / 16), hexChar (b % 16)]

/-- `str(ObjectId)`: the canonical 24-character lowercase hex rendering. -/
def ObjectId.toHexString (o : ObjectId) : String :=
  ⟨(o.bytes.map byteToHex).flatten⟩

/-- A document-store value: ObjectId scalar, other scalars (string, integer,
    boolean, null), sequence, or mapping with string keys in insertion
    order.  This is the tagged-variant representation of the dynamic values
    `convert_objectid` walks. -/
inductive BDoc where
  | oid (o : ObjectId)
  | str (s : String)
  | int (n : Int)
  | bool (b : Bool)
  | null
  | arr (items : List BDoc)
  | dict (fields : List (String × BDoc))

mutual
/-- `convert_objectid` (main.py lines 143-150): lists elementwise, dict values
    with keys kept, `ObjectId` to its string, anything else unchanged. -/
def convert_objectid : BDoc → BDoc
  | .arr items => .arr (convert_objectid_list items)
  | .dict kvs => .dict (convert_objectid_pairs kvs)
  | .oid o => .str o.toHexString
  | .str s => .str s
  | .int n => .int n
  | .bool b => .bool b
  | .null => .null
/-- The list comprehension `[convert_objectid(item) for item in data]`. -/
def convert_objectid_list : List BDoc → List BDoc
  | [] => []
  | x :: xs => convert_objectid x :: convert_objectid_list xs
/-- The dict comprehension `{key: convert_objectid(value) for key, value in data.items()}`. -/
def convert_objectid_pairs : List (String × BDoc) → List (String × BDoc)
  | [] => []
  | (k, v) :: xs => (k, convert_objectid v) :: convert_objectid_pairs xs
end

mutual
/-- `true` iff the document contains no ObjectId value anywhere. -/
def objectIdFree : BDoc → Bool
  | .oid _ => false
  | .arr items => objectIdFreeList items
  | .dict kvs => objectIdFreePairs kvs
  | .str _ => true
  | .int _ => true
  | .bool _ => true
  | .null => true
def objectIdFreeList : List BDoc → Bool
  | [] => true
  | x :: xs => objectIdFree x && objectIdFreeList xs
def objectIdFreePairs : List (String × BDoc) → Bool
  | [] => true
  | kv :: xs => objectIdFree kv.2 && objectIdFreePairs xs
end

mutual
/-- Number of nodes of a document (a bound on the recursion depth of
    `convert_objectid`). -/
def bsize : BDoc → Nat
  | .oid _ => 1
  | .str _ => 1
  | .int _ => 1
  | .bool _ => 1
  | .null => 1
  | .arr items => 1 + bsizeList items
  | .dict kvs => 1 + bsizePairs kvs
def bsizeList : List BDoc → Nat
  | [] => 0
  | x :: xs => bsize x + bsizeList xs
def bsizePairs : List (String × BDoc) → Nat
  | [] => 0
  | kv :: xs => bsize kv.2 + bsizePairs xs
end

/-- Map an `Option`-valued function over a list, failing as soon as one
    element fails. -/
def optionMapList {α β : Type} (f : α → Option β) : List α → Option (List β)
  | [] => some []
  | x :: xs => do
      let y ← f x
      let ys ← optionMapList f xs
      pure (y :: ys)

/-- Fuel-indexed interpreter of the recursion of `convert_objectid`: one unit
    of fuel per recursive call, `none` when the fuel runs out.  Used to state
    that the recursion terminates on every finite document. -/
def convertFuel : Nat → BDoc → Option BDoc
  | 0, _ => none
  | fuel + 1, d =>
    match d with
    | .arr items => (optionMapList (convertFuel fuel) items).map BDoc.arr
    | .dict kvs =>
        (optionMapList (fun kv => (convertFuel fuel kv.2).map (fun v => (kv.1, v))) kvs).map
          BDoc.dict
    | .oid o => some (.str o.toHexString)
    | .str s => some (.str s)
    | .int n => some (.int n)
    | .bool b => some (.bool b)
    | .null => some .null

/-- Structural induction over `BDoc` with membership hypotheses for the
    nested lists. -/
theorem BDoc.indOn (P : BDoc → Prop)
    (hoid : ∀ o, P (BDoc.oid o))
    (hstr : ∀ s, P (BDoc.str s))
    (hint : ∀ n, P (BDoc.int n))
    (hbool : ∀ b, P (BDoc.bool b))
    (hnull : P BDoc.null)
    (harr : ∀ items, (∀ x ∈ items, P x) → P (BDoc.arr items))
    (hdict : ∀ kvs, (∀ kv ∈ kvs, P kv.2) → P (BDoc.dict kvs)) :
    ∀ d, P d
  | .oid o => hoid o
  | .str s => hstr s
  | .int n => hint n
  | .bool b => hbool b
  | .null => hnull
  | .arr items => harr items (fun x hx =>
      have : sizeOf x < 1 + sizeOf items := by
        have := List.sizeOf_lt_of_mem hx
        omega
      BDoc.indOn P hoid hstr hint hbool hnull harr hdict x)
  | .dict kvs => hdict kvs (fun kv hkv =>
      have : sizeOf kv.2 < 1 + sizeOf kvs := by
        have h1 := List.sizeOf_lt_of_mem hkv
        have h2 : sizeOf kv.2 < sizeOf kv := by
          obtain ⟨a, b⟩ := kv
          simp
        omega
      BDoc.indOn P hoid hstr hint hbool hnull harr hdict kv.2)
termination_by d => sizeOf d

/-- A chat message (pydantic model `Message`, main.py lines 63-65). -/
structure Message where
  role : String
  content : String

/-- The request body (pydantic model `OpenAIRequest`, lines 67-70), with the
    pydantic defaults for `model` and `max_tokens`. -/
structure OpenAIRequest where
  model : String := "gpt-4o"
  max_tokens : Int := 1000
  messages : List Message

/-- The outbound JSON payload built at lines 104-112. -/
structure Payload where
  model : String
  messages : List (String × String)
  max_tokens : Int
  temperature : ℚ
deriving DecidableEq

/-- Lines 104-112: `{"model": ..., "messages": [...role/content pairs...],
    "max_tokens": ..., "temperature": 0.7}`. -/
def buildPayload (req : OpenAIRequest) : Payload :=
  { model := req.model
    messages := req.messages.map (fun m => (m.role, m.content))
    max_tokens := req.max_tokens
    temperature := (7 : ℚ) / 10 }

/-- Outcome of the outbound `httpx` POST: either a completed HTTP exchange
    with a status code and a body text, or an `httpx.RequestError`. -/
inductive UpstreamResult where
  | response (status : Nat) (text : String)
  | requestError (msg : String)

/-- What a handler produces: a 200 body, or an `HTTPException` rendered as a
    status code with a `detail` string. -/
inductive HandlerResult (α : Type) where
  | ok (status : Nat) (body : α)
  | httpError (status : Nat) (detail : String)
deriving DecidableEq

/-- The `/api/openai` handler (lines 96-138).  `parse` is `response.json()`
    (returning `none` where it raises), `decodeErrMsg` is `str(e)` of that
    failure, `upstream` is the outbound POST.  Returns the handler's result
    together with the payload it sent upstream.

    Control flow of the source: the `HTTPException(response.status_code, ...)`
    raised at lines 122-125 sits inside the `try` block, so it is caught by
    `except Exception as e` at line 134 and replaced by
    `HTTPException(500, f"Internal server error: {str(e)}")`, where Starlette's
    `HTTPException.__str__` renders `e` as `"{status_code}: {detail}"`.
    A JSON-decode failure of `response.json()` (a `ValueError`, not an
    `httpx.RequestError`) is caught by the same branch. -/
def openai_proxy {α : Type} (parse : String → Option α) (decodeErrMsg : String → String)
    (upstream : Payload → UpstreamResult) (req : OpenAIRequest) :
    HandlerResult α × Payload :=
  let payload := buildPayload req
  let result :=
    match upstream payload with
    | .requestError msg =>
        HandlerResult.httpError 500 ("Failed to connect to OpenAI API: " ++ msg)
    | .response status text =>
        if status ≠ 200 then
          HandlerResult.httpError 500
            ("Internal server error: " ++ toString status ++ ": OpenAI API error: " ++ text)
        else
          match parse text with
          | some j => HandlerResult.ok 200 j
          | none => HandlerResult.httpError 500 ("Internal server error: " ++ decodeErrMsg text)
  (result, payload)

/-- Lookup of a key in a mapping (`job["_id"]` / `job.get(...)`). -/
def dictLookup (kvs : List (String × BDoc)) (k : String) : Option BDoc :=
  match kvs with
  | [] => none
  | (k0, v) :: rest => if k0 = k then some v else dictLookup rest k

/-- The Mongo filter `{"_id": object_id}`: does the document's `_id` field
    equal the given ObjectId? -/
def hasId (object_id : ObjectId) (doc : List (String × BDoc)) : Bool :=
  match dictLookup doc "_id" with
  | some (BDoc.oid o) => decide (o = object_id)
  | _ => false

/-- `db.jobs.find_one({"_id": object_id})` over a store modelled as the list
    of documents of the `jobs` collection. -/
def find_one (jobs : List (List (String × BDoc))) (object_id : ObjectId) :
    Option (List (String × BDoc)) :=
  jobs.find? (hasId object_id)

/-- The `/jobs/{_id}` handler (lines 155-173), paired with the number of
    queries it issued to the document store.
    `ObjectId(_id)` failing (`InvalidId`) becomes 400 before any query;
    `if not job` covers both `None` and a falsy empty mapping; the found
    document is passed through `convert_objectid` and projected onto the
    four response fields.  (`job["_id"]` would raise `KeyError` on a document
    without `_id`, but `find_one`'s filter guarantees the field is present;
    the `getD` default is unreachable.) -/
def get_job_details (jobs : List (List (String × BDoc))) (idStr : String) :
    HandlerResult (List (String × BDoc)) × Nat :=
  match ObjectId.ofHex idStr with
  | none => (HandlerResult.httpError 400 "Invalid job ID", 0)
  | some object_id =>
    match find_one jobs object_id with
    | none => (HandlerResult.httpError 404 "Job not found", 1)
    | some job =>
      if job.isEmpty then (HandlerResult.httpError 404 "Job not found", 1)
      else
        let job2 := convert_objectid_pairs job
        (HandlerResult.ok 200
          [("job_id", (dictLookup job2 "_id").getD BDoc.null),
           ("title", (dictLookup job2 "jobTitle").getD BDoc.null),
           ("description", (dictLookup job2 "plainTextJobDescription").getD BDoc.null),
           ("questions", (dictLookup job2 "questions").getD (BDoc.arr []))], 1)

theorem convert_objectid_list_eq_map (l : List BDoc) :
    convert_objectid_list l = l.map convert_objectid := by
  induction l with
  | nil => simp [convert_objectid_list]
  | cons x xs ih => simp [convert_objectid_list, ih]

theorem convert_objectid_pairs_eq_map (kvs : List (String × BDoc)) :
    convert_objectid_pairs kvs = kvs.map (fun kv => (kv.1, convert_objectid kv.2)) := by
  induction kvs with
  | nil => simp [convert_objectid_pairs]
  | cons kv xs ih =>
      obtain ⟨k, v⟩ := kv
      simp [convert_objectid_pairs, ih]

theorem dictLookup_convert (kvs : List (String × BDoc)) (k : String) :
    dictLookup (convert_objectid_pairs kvs) k = (dictLookup kvs k).map convert_objectid := by
  induction kvs with
  | nil => simp [convert_objectid_pairs, dictLookup]
  | cons kv xs ih =>
      obtain ⟨k0, v⟩ := kv
      by_cases h : k0 = k
      · simp [convert_objectid_pairs, dictLookup, h]
      · simp [convert_objectid_pairs, dictLookup, h, ih]

theorem hasId_lookup {object_id : ObjectId} {doc : List (String × BDoc)}
    (h : hasId object_id doc = true) :
    dictLookup doc "_id" = some (BDoc.oid object_id) := by
  unfold hasId at h
  cases hd : dictLookup doc "_id" with
  | none => rw [hd] at h; simp at h
  | some v =>
      cases v with
      | oid o => rw [hd] at h; simp at h; rw [h]
      | str s => rw [hd] at h; simp at h
      | int n => rw [hd] at h; simp at h
      | bool b => rw [hd] at h; simp at h
      | null => rw [hd] at h; simp at h
      | arr items => rw [hd] at h; simp at h
      | dict fields => rw [hd] at h; simp at h

theorem lookup_ne_empty {doc : List (String × BDoc)} {k : String} {v : BDoc}
    (h : dictLookup doc k = some v) : doc.isEmpty = false := by
  cases doc with
  | nil => simp [dictLookup] at h
  | cons kv rest => simp

/-- Evaluation of the success path of `get_job_details`: a valid identifier
    whose query finds a document yields the 200 projection, the lookups taken
    in the original document and normalized afterwards, and exactly one
    store query. -/
theorem get_job_details_found (jobs : List (List (String × BDoc))) (idStr : String)
    (object_id : ObjectId) (job : List (String × BDoc))
    (h1 : ObjectId.ofHex idStr = some object_id)
    (h2 : find_one jobs object_id = some job) :
    get_job_details jobs idStr =
      (HandlerResult.ok 200
        [("job_id", BDoc.str object_id.toHexString),
         ("title", ((dictLookup job "jobTitle").map convert_objectid).getD BDoc.null),
         ("description",
            ((dictLookup job "plainTextJobDescription").map convert_objectid).getD BDoc.null),
         ("questions", ((dictLookup job "questions").map convert_objectid).getD (BDoc.arr []))],
       1) := by
  have hfind := List.find?_some h2
  have hid := hasId_lookup hfind
  have hne := lookup_ne_empty hid
  simp [get_job_details, h1, h2, hne, dictLookup_convert, hid, convert_objectid]

theorem convert_objectid_idem (d : BDoc) :
    convert_objectid (convert_objectid d) = convert_objectid d := by
  induction d using BDoc.indOn with
  | hoid o => simp [convert_objectid]
  | hstr s => simp [convert_objectid]
  | hint n => simp [convert_objectid]
  | hbool b => simp [convert_objectid]
  | hnull => simp [convert_objectid]
  | harr items ih =>
      simp only [convert_objectid, convert_objectid_list_eq_map, List.map_map]
      congr 1
      exact List.map_congr_left (fun x hx => ih x hx)
  | hdict kvs ih =>
      simp only [convert_objectid, convert_objectid_pairs_eq_map, List.map_map]
      congr 1
      refine List.map_congr_left (fun kv hkv => ?_)
      simp [ih kv hkv]

theorem objectIdFreeList_mem {l : List BDoc} (h : objectIdFreeList l = true) :
    ∀ x ∈ l, objectIdFree x = true := by
  induction l with
  | nil => simp
  | cons y ys ih =>
      simp only [objectIdFreeList, Bool.and_eq_true] at h
      intro x hx
      cases hx with
      | head => exact h.1
      | tail _ hx => exact ih h.2 x hx

theorem objectIdFreePairs_mem {l : List (String × BDoc)} (h : objectIdFreePairs l = true) :
    ∀ kv ∈ l, objectIdFree kv.2 = true := by
  induction l with
  | nil => simp
  | cons y ys ih =>
      simp only [objectIdFreePairs, Bool.and_eq_true] at h
      intro kv hkv
      cases hkv with
      | head => exact h.1
      | tail _ hkv => exact ih h.2 kv hkv

theorem convert_objectid_of_free (d : BDoc) (h : objectIdFree d = true) :
    convert_objectid d = d := by
  induction d using BDoc.indOn with
  | hoid o => simp [objectIdFree] at h
  | hstr s => simp [convert_objectid]
  | hint n => simp [convert_objectid]
  | hbool b => simp [convert_objectid]
  | hnull => simp [convert_objectid]
  | harr items ih =>
      have hall : ∀ x ∈ items, objectIdFree x = true := by
        refine objectIdFreeList_mem ?_
        simpa only [objectIdFree] using h
      simp only [convert_objectid, convert_objectid_list_eq_map]
      congr 1
      calc items.map convert_objectid = items.map id :=
            List.map_congr_left (fun x hx => ih x hx (hall x hx))
        _ = items := List.map_id items
  | hdict kvs ih =>
      have hall : ∀ kv ∈ kvs, objectIdFree kv.2 = true := by
        refine objectIdFreePairs_mem ?_
        simpa only [objectIdFree] using h
      simp only [convert_objectid, convert_objectid_pairs_eq_map]
      congr 1
      calc kvs.map (fun kv => (kv.1, convert_objectid kv.2)) = kvs.map id := by
            refine List.map_congr_left (fun kv hkv => ?_)
            simp [ih kv hkv (hall kv hkv)]
        _ = kvs := List.map_id kvs

theorem optionMapList_eq_some {α β : Type} (f : α → Option β) (g : α → β) (l : List α)
    (h : ∀ x ∈ l, f x = some (g x)) : optionMapList f l = some (l.map g) := by
  induction l with
  | nil => simp [optionMapList]
  | cons x xs ih =>
      rw [optionMapList, h x (by simp), ih (fun y hy => h y (by simp [hy]))]
      rfl

theorem bsize_pos (d : BDoc) : 1 ≤ bsize d := by
  cases d <;> simp [bsize]

theorem bsizeList_mem {l : List BDoc} {x : BDoc} (h : x ∈ l) : bsize x ≤ bsizeList l := by
  induction l with
  | nil => simp at h
  | cons y ys ih =>
      cases h with
      | head => simp [bsizeList]
      | tail _ h => simp only [bsizeList]; have := ih h; omega

theorem bsizePairs_mem {l : List (String × BDoc)} {kv : String × BDoc} (h : kv ∈ l) :
    bsize kv.2 ≤ bsizePairs l := by
  induction l with
  | nil => simp at h
  | cons y ys ih =>
      cases h with
      | head => simp [bsizePairs]
      | tail _ h => simp only [bsizePairs]; have := ih h; omega

/-- With at least `bsize d` units of fuel, the fuel-indexed interpreter does
    not run out and computes `convert_objectid d`. -/
theorem convertFuel_complete (d : BDoc) :
    ∀ fuel, bsize d ≤ fuel → convertFuel fuel d = some (convert_objectid d) := by
  induction d using BDoc.indOn with
  | hoid o =>
      intro fuel hf
      simp [bsize] at hf
      obtain ⟨m, rfl⟩ : ∃ m, fuel = m + 1 := ⟨fuel - 1, by omega⟩
      simp [convertFuel, convert_objectid]
  | hstr s =>
      intro fuel hf
      simp [bsize] at hf
      obtain ⟨m, rfl⟩ : ∃ m, fuel = m + 1 := ⟨fuel - 1, by omega⟩
      simp [convertFuel, convert_objectid]
  | hint n =>
      intro fuel hf
      simp [bsize] at hf
      obtain ⟨m, rfl⟩ : ∃ m, fuel = m + 1 := ⟨fuel - 1, by omega⟩
      simp [convertFuel, convert_objectid]
  | hbool b =>
      intro fuel hf
      simp [bsize] at hf
      obtain ⟨m, rfl⟩ : ∃ m, fuel = m + 1 := ⟨fuel - 1, by omega⟩
      simp [convertFuel, convert_objectid]
  | hnull =>
      intro fuel hf
      simp [bsize] at hf
      obtain ⟨m, rfl⟩ : ∃ m, fuel = m + 1 := ⟨fuel - 1, by omega⟩
      simp [convertFuel, convert_objectid]
  | harr items ih =>
      intro fuel hf
      simp only [bsize] at hf
      obtain ⟨m, rfl⟩ : ∃ m, fuel = m + 1 := ⟨fuel - 1, by omega⟩
      have hmap : optionMapList (convertFuel m) items = some (items.map convert_objectid) := by
        refine optionMapList_eq_some _ _ _ (fun x hx => ?_)
        have hb := bsizeList_mem hx
        exact ih x hx m (by omega)
      simp [convertFuel, hmap, convert_objectid, convert_objectid_list_eq_map]
  | hdict kvs ih =>
      intro fuel hf
      simp only [bsize] at hf
      obtain ⟨m, rfl⟩ : ∃ m, fuel = m + 1 := ⟨fuel - 1, by omega⟩
      have hmap : optionMapList (fun kv => (convertFuel m kv.2).map (fun v => (kv.1, v))) kvs
          = some (kvs.map (fun kv => (kv.1, convert_objectid kv.2))) := by
        refine optionMapList_eq_some _ _ _ (fun kv hkv => ?_)
        have hb := bsizePairs_mem hkv
        rw [ih kv hkv m (by omega)]
        rfl
      simp [convertFuel, hmap, convert_objectid, convert_objectid_pairs_eq_map]

/-- The ObjectId whose canonical rendering is `"507f1f77bcf86cd799439011"`. -/
def oidA : ObjectId :=
  ⟨[0x50, 0x7f, 0x1f, 0x77, 0xbc, 0xf8, 0x6c, 0xd7, 0x99, 0x43, 0x90, 0x11]⟩

/-- A sample stored job record with all projected fields present. -/
def jobA : List (String × BDoc) :=
  [("_id", BDoc.oid oidA),
   ("jobTitle", BDoc.str "Engineer"),
   ("plainTextJobDescription", BDoc.str "Build things"),
   ("questions", BDoc.arr [BDoc.dict [("questionText", BDoc.str "Why?")]])]

/-- A sample document with no ObjectId anywhere. -/
def sampleFree : BDoc :=
  BDoc.dict
    [("jobTitle", BDoc.str "Engineer"),
     ("questions", BDoc.arr [BDoc.dict [("questionText", BDoc.str "Why?")]]),
     ("n", BDoc.int 3)]

/-- C1: the claim says a non-success upstream status S is relayed to the
    client as status S.  The code does not do this: the
    `HTTPException(response.status_code, ...)` raised at main.py lines 122-125
    is itself caught by the `except Exception` branch at line 134, which
    replaces it with a 500 whose detail wraps `str(e)`.  At the claimed
    example input (upstream 429, body "rate limited") the handler therefore
    answers 500, not 429 — the detail still contains the body. -/
theorem C1_upstream_status_swallowed :
    (openai_proxy (fun _ => (none : Option Nat)) (fun _ => "")
        (fun _ => UpstreamResult.response 429 "rate limited")
        { messages := [] }).1
      = HandlerResult.httpError 500
          "Internal server error: 429: OpenAI API error: rate limited" := by
  rfl

/-- C2: a path string that `ObjectId` cannot convert makes `GET /jobs/{id}`
    answer 400 "Invalid job ID" with zero document-store queries, whatever
    the store contains. -/
theorem C2_invalid_id_rejected_before_query (idStr : String)
    (h : ObjectId.ofHex idStr = none) (jobs : List (List (String × BDoc))) :
    get_job_details jobs idStr = (HandlerResult.httpError 400 "Invalid job ID", 0) := by
  simp [get_job_details, h]

theorem C2_witness :
    ObjectId.ofHex "not-a-valid-id" = none ∧
    get_job_details [[("_id", BDoc.oid oidA)]] "not-a-valid-id"
      = (HandlerResult.httpError 400 "Invalid job ID", 0) :=
  ⟨rfl, C2_invalid_id_rejected_before_query "not-a-valid-id" rfl
          [[("_id", BDoc.oid oidA)]]⟩

/-- C3: when the lookup finds a record, `GET /jobs/{id}` answers 200 with
    exactly the four-field projection of the identifier-normalized record:
    `job_id` the canonical string of the identifier, `title` and
    `description` the normalized `jobTitle` / `plainTextJobDescription`
    fields (null when absent), `questions` the normalized `questions` field
    (empty sequence when absent). -/
theorem C3_found_projection (jobs : List (List (String × BDoc))) (idStr : String)
    (object_id : ObjectId) (job : List (String × BDoc))
    (h1 : ObjectId.ofHex idStr = some object_id)
    (h2 : find_one jobs object_id = some job) :
    (get_job_details jobs idStr).1 =
      HandlerResult.ok 200
        [("job_id", BDoc.str object_id.toHexString),
         ("title", (dictLookup (convert_objectid_pairs job) "jobTitle").getD BDoc.null),
         ("description",
            (dictLookup (convert_objectid_pairs job) "plainTextJobDescription").getD BDoc.null),
         ("questions",
            (dictLookup (convert_objectid_pairs job) "questions").getD (BDoc.arr []))] := by
  rw [get_job_details_found jobs idStr object_id job h1 h2]
  simp [dictLookup_convert]

theorem C3_witness :
    (get_job_details [jobA] "507f1f77bcf86cd799439011").1 =
      HandlerResult.ok 200
        [("job_id", BDoc.str oidA.toHexString),
         ("title", (dictLookup (convert_objectid_pairs jobA) "jobTitle").getD BDoc.null),
         ("description",
            (dictLookup (convert_objectid_pairs jobA) "plainTextJobDescription").getD BDoc.null),
         ("questions",
            (dictLookup (convert_objectid_pairs jobA) "questions").getD (BDoc.arr []))] :=
  C3_found_projection [jobA] "507f1f77bcf86cd799439011" oidA jobA rfl rfl

/-- C4: when the lookup finds nothing, `GET /jobs/{id}` answers 404
    "Job not found" and produces no 200 body. -/
theorem C4_not_found (jobs : List (List (String × BDoc))) (idStr : String)
    (object_id : ObjectId)
    (h1 : ObjectId.ofHex idStr = some object_id)
    (h2 : find_one jobs object_id = none) :
    (get_job_details jobs idStr).1 = HandlerResult.httpError 404 "Job not found" ∧
    ∀ s out, (get_job_details jobs idStr).1 ≠ HandlerResult.ok s out := by
  have h : get_job_details jobs idStr = (HandlerResult.httpError 404 "Job not found", 1) := by
    simp [get_job_details, h1, h2]
  rw [h]
  exact ⟨rfl, fun s out hc => by cases hc⟩

theorem C4_witness :
    (get_job_details [] "507f1f77bcf86cd799439011").1
      = HandlerResult.httpError 404 "Job not found" :=
  (C4_not_found [] "507f1f77bcf86cd799439011" oidA rfl rfl).1

/-- C5: the outbound payload is exactly `{model, messages (role/content pairs
    in order), max_tokens, temperature := 0.7}`; `model` and `max_tokens`
    default to "gpt-4o" and 1000 when omitted; and a 200 upstream reply whose
    body parses as JSON is returned verbatim with status 200. -/
theorem C5_payload_and_verbatim {α : Type} (parse : String → Option α)
    (decodeErrMsg : String → String) (upstream : Payload → UpstreamResult)
    (req : OpenAIRequest) (text : String) (j : α)
    (hup : upstream (buildPayload req) = UpstreamResult.response 200 text)
    (hparse : parse text = some j) :
    (openai_proxy parse decodeErrMsg upstream req).2 =
      { model := req.model
        messages := req.messages.map (fun m => (m.role, m.content))
        max_tokens := req.max_tokens
        temperature := (7 : ℚ) / 10 } ∧
    (∀ ms, ({ messages := ms } : OpenAIRequest).model = "gpt-4o" ∧
           ({ messages := ms } : OpenAIRequest).max_tokens = 1000) ∧
    (openai_proxy parse decodeErrMsg upstream req).1 = HandlerResult.ok 200 j := by
  refine ⟨rfl, fun ms => ⟨rfl, rfl⟩, ?_⟩
  simp [openai_proxy, hup, hparse]

theorem C5_witness :
    (openai_proxy (fun s => some s) (fun _ => "")
        (fun _ => UpstreamResult.response 200 "completionjson")
        { messages := [{ role := "user", content := "hi" }] }).2 =
      { model := "gpt-4o"
        messages := [("user", "hi")]
        max_tokens := 1000
        temperature := (7 : ℚ) / 10 } ∧
    (∀ ms, ({ messages := ms } : OpenAIRequest).model = "gpt-4o" ∧
           ({ messages := ms } : OpenAIRequest).max_tokens = 1000) ∧
    (openai_proxy (fun s => some s) (fun _ => "")
        (fun _ => UpstreamResult.response 200 "completionjson")
        { messages := [{ role := "user", content := "hi" }] }).1
      = HandlerResult.ok 200 "completionjson" :=
  C5_payload_and_verbatim (fun s => some s) (fun _ => "")
    (fun _ => UpstreamResult.response 200 "completionjson")
    { messages := [{ role := "user", content := "hi" }] }
    "completionjson" "completionjson" rfl rfl

/-- C6: `convert_objectid` maps a sequence elementwise (preserving order and
    length), maps a mapping's values with every key kept, turns an ObjectId
    into its canonical string, and leaves every other scalar unchanged. -/
theorem C6_normalization_shape :
    (∀ items, convert_objectid (BDoc.arr items) = BDoc.arr (items.map convert_objectid) ∧
        (items.map convert_objectid).length = items.length) ∧
    (∀ kvs, convert_objectid (BDoc.dict kvs)
          = BDoc.dict (kvs.map (fun kv => (kv.1, convert_objectid kv.2))) ∧
        (kvs.map (fun kv => (kv.1, convert_objectid kv.2))).map Prod.fst = kvs.map Prod.fst) ∧
    (∀ o, convert_objectid (BDoc.oid o) = BDoc.str o.toHexString) ∧
    (∀ s, convert_objectid (BDoc.str s) = BDoc.str s) ∧
    (∀ n, convert_objectid (BDoc.int n) = BDoc.int n) ∧
    (∀ b, convert_objectid (BDoc.bool b) = BDoc.bool b) ∧
    convert_objectid BDoc.null = BDoc.null := by
  refine ⟨fun items => ⟨?_, by simp⟩, fun kvs => ⟨?_, by simp⟩,
          fun o => rfl, fun s => rfl, fun n => rfl, fun b => rfl, rfl⟩
  · simp [convert_objectid, convert_objectid_list_eq_map]
  · simp [convert_objectid, convert_objectid_pairs_eq_map]

/-- C7: `convert_objectid` is idempotent on every finite document and is the
    identity on documents containing no ObjectId value. -/
theorem C7_idempotent_and_noop :
    (∀ d, convert_objectid (convert_objectid d) = convert_objectid d) ∧
    (∀ d, objectIdFree d = true → convert_objectid d = d) :=
  ⟨convert_objectid_idem, convert_objectid_of_free⟩

theorem C7_witness :
    convert_objectid (convert_objectid (BDoc.dict jobA)) = convert_objectid (BDoc.dict jobA) ∧
    objectIdFree sampleFree = true ∧
    convert_objectid sampleFree = sampleFree :=
  ⟨C7_idempotent_and_noop.1 (BDoc.dict jobA), rfl,
   C7_idempotent_and_noop.2 sampleFree rfl⟩

/-- C8: the recursion of `convert_objectid` terminates on every finite
    document: run with one unit of fuel per recursive call, it halts within
    `bsize d` calls and computes the total function `convert_objectid`. -/
theorem C8_terminates_with_finite_fuel (d : BDoc) :
    convertFuel (bsize d) d = some (convert_objectid d) :=
  convertFuel_complete d (bsize d) (Nat.le_refl _)

/-- C9: a 200 upstream reply whose body does not parse as JSON is not
    relayed; `response.json()` raises, the generic `except Exception` branch
    answers 500 and the detail begins "Internal server error:". -/
theorem C9_unparseable_200_body {α : Type} (parse : String → Option α)
    (decodeErrMsg : String → String) (upstream : Payload → UpstreamResult)
    (req : OpenAIRequest) (text : String)
    (hup : upstream (buildPayload req) = UpstreamResult.response 200 text)
    (hparse : parse text = none) :
    (openai_proxy parse decodeErrMsg upstream req).1
      = HandlerResult.httpError 500 ("Internal server error: " ++ decodeErrMsg text) ∧
    ∃ rest, (openai_proxy parse decodeErrMsg upstream req).1
      = HandlerResult.httpError 500 ("Internal server error: " ++ rest) := by
  have h : (openai_proxy parse decodeErrMsg upstream req).1
      = HandlerResult.httpError 500 ("Internal server error: " ++ decodeErrMsg text) := by
    simp [openai_proxy, hup, hparse]
  exact ⟨h, decodeErrMsg text, h⟩

theorem C9_witness :
    (openai_proxy (fun _ => (none : Option Nat))
        (fun _ => "Expecting value: line 1 column 1 (char 0)")
        (fun _ => UpstreamResult.response 200 "not json")
        { messages := [] }).1
      = HandlerResult.httpError 500
          ("Internal server error: " ++ "Expecting value: line 1 column 1 (char 0)") ∧
    ∃ rest, (openai_proxy (fun _ => (none : Option Nat))
        (fun _ => "Expecting value: line 1 column 1 (char 0)")
        (fun _ => UpstreamResult.response 200 "not json")
        { messages := [] }).1
      = HandlerResult.httpError 500 ("Internal server error: " ++ rest) :=
  C9_unparseable_200_body (fun _ => (none : Option Nat))
    (fun _ => "Expecting value: line 1 column 1 (char 0)")
    (fun _ => UpstreamResult.response 200 "not json")
    { messages := [] } "not json" rfl rfl

/-- C10: on a successful lookup the `job_id` field is the canonical lowercase
    hex string of the converted ObjectId; for a valid 24-character identifier
    containing uppercase letters this differs from the supplied path string. -/
theorem C10_job_id_is_canonical_hex (jobs : List (List (String × BDoc)))
    (idStr : String) (object_id : ObjectId) (job : List (String × BDoc))
    (h1 : ObjectId.ofHex idStr = some object_id)
    (h2 : find_one jobs object_id = some job) :
    (∃ out, (get_job_details jobs idStr).1 = HandlerResult.ok 200 out ∧
        dictLookup out "job_id" = some (BDoc.str object_id.toHexString)) ∧
    (∃ o2, ObjectId.ofHex "507F1F77BCF86CD799439011" = some o2 ∧
        o2.toHexString = "507f1f77bcf86cd799439011" ∧
        o2.toHexString ≠ "507F1F77BCF86CD799439011") := by
  constructor
  · refine ⟨[("job_id", BDoc.str object_id.toHexString),
       ("title", ((dictLookup job "jobTitle").map convert_objectid).getD BDoc.null),
       ("description",
          ((dictLookup job "plainTextJobDescription").map convert_objectid).getD BDoc.null),
       ("questions", ((dictLookup job "questions").map convert_objectid).getD (BDoc.arr []))],
       ?_, ?_⟩
    · rw [get_job_details_found jobs idStr object_id job h1 h2]
    · simp [dictLookup]
  · exact ⟨oidA, rfl, rfl, by decide⟩

theorem C10_witness :
    (∃ out, (get_job_details [jobA] "507f1f77bcf86cd799439011").1
        = HandlerResult.ok 200 out ∧
        dictLookup out "job_id" = some (BDoc.str oidA.toHexString)) ∧
    (∃ o2, ObjectId.ofHex "507F1F77BCF86CD799439011" = some o2 ∧
        o2.toHexString = "507f1f77bcf86cd799439011" ∧
        o2.toHexString ≠ "507F1F77BCF86CD799439011") :=
  C10_job_id_is_canonical_hex [jobA] "507f1f77bcf86cd799439011" oidA jobA rfl rfl
